import Mathlib

/-!
# Guidelines-agent: verification of the guideline matching and response
# supervision pipeline

Shallow embedding of the repository's core logic:

* `supabase-setup.sql` — the `guidelines` and `conversation_sessions`
  tables and the `match_guidelines` / `match_guidelines_stateful`
  vector-search functions (`GRow`, `match_guidelines`,
  `match_guidelines_stateful`).
* `src/app/api/chat/route.ts` — the chat pipeline: `guidelineMatching`,
  `superviseAndCorrectResponseStream`, the prompt assembly and the
  SSE stream construction inside `POST` (`chatTurn`).
* the guideline-authoring `POST` route and
  `src/app/api/guidelines/regenerate-embeddings/route.ts`
  (`createGuideline`, `regenerateEmbeddings`).

External collaborators (OpenAI embeddings/completions, the pgvector
distance operator, Supabase transport) are modelled as explicit
parameters: each LLM or database call's outcome is an input to the
embedded function, and the pgvector cosine-distance operator is an
arbitrary function parameter, since the claims never depend on its
numeric definition.
-/

namespace GuidelinesAgent

/-- An embedding vector (`vector(1536)` in the schema).  The dimension and
the numeric contents are irrelevant to every claim, so vectors are plain
rational lists and the pgvector distance operator is taken as a parameter
wherever it is used. -/
abbrev Emb := List ℚ

/-- A row of the `guidelines` table (supabase-setup.sql, lines 5-15).
`embedding` is nullable in the schema, hence an `Option`. -/
structure GRow where
  id : Int
  title : String
  condition : String
  action : String
  priority : Int
  category : String
  embedding : Option Emb
deriving Repr, DecidableEq

/-- The row shape returned by `match_guidelines` and
`match_guidelines_stateful` (their `RETURNS TABLE` clause), which is also
the `Guideline` interface of `src/app/api/chat/route.ts` (lines 4-12):
a guideline together with its similarity to the query. -/
structure Candidate where
  id : Int
  title : String
  condition : String
  action : String
  priority : Int
  category : String
  similarity : ℚ
deriving Repr, DecidableEq

/-- `g.embedding <=> query_embedding` for a table row; rows whose
embedding is null never reach a context where this value matters (they
are removed by the `WHERE g.embedding IS NOT NULL` filter), so the null
case is given an arbitrary value. -/
def rowDist (dist : Emb → Emb → ℚ) (q : Emb) (g : GRow) : ℚ :=
  match g.embedding with
  | some e => dist e q
  | none => 0

/-- The `WHERE` clause of `match_guidelines`:
`g.embedding IS NOT NULL AND 1 - (g.embedding <=> query_embedding) > match_threshold`. -/
def matchEligible (dist : Emb → Emb → ℚ) (q : Emb) (τ : ℚ) (g : GRow) : Bool :=
  match g.embedding with
  | none => false
  | some e => decide (1 - dist e q > τ)

/-- The `ORDER BY g.priority DESC, g.embedding <=> query_embedding` key
order of both SQL functions: `a` may precede `b` iff `a` has strictly
higher priority, or equal priority and distance at most that of `b`. -/
abbrev sqlOrder (dist : Emb → Emb → ℚ) (q : Emb) (a b : GRow) : Prop :=
  b.priority < a.priority ∨
    (a.priority = b.priority ∧ rowDist dist q a ≤ rowDist dist q b)

instance sqlOrderTotal (dist : Emb → Emb → ℚ) (q : Emb) :
    IsTotal GRow (sqlOrder dist q) := by
  constructor
  intro a b
  rcases lt_trichotomy a.priority b.priority with h | h | h
  · exact Or.inr (Or.inl h)
  · rcases le_total (rowDist dist q a) (rowDist dist q b) with h2 | h2
    · exact Or.inl (Or.inr ⟨h, h2⟩)
    · exact Or.inr (Or.inr ⟨h.symm, h2⟩)
  · exact Or.inl (Or.inl h)

instance sqlOrderTrans (dist : Emb → Emb → ℚ) (q : Emb) :
    IsTrans GRow (sqlOrder dist q) := by
  constructor
  rintro a b c (hab | ⟨hab, hab2⟩) (hbc | ⟨hbc, hbc2⟩)
  · exact Or.inl (hbc.trans hab)
  · exact Or.inl (hbc ▸ hab)
  · exact Or.inl (hab ▸ hbc)
  · exact Or.inr ⟨hab.trans hbc, hab2.trans hbc2⟩

/-- The `SELECT` list of both SQL functions: the guideline's columns
together with `1 - (g.embedding <=> query_embedding) as similarity`. -/
def candidateOf (dist : Emb → Emb → ℚ) (q : Emb) (g : GRow) : Candidate :=
  { id := g.id, title := g.title, condition := g.condition,
    action := g.action, priority := g.priority, category := g.category,
    similarity := 1 - rowDist dist q g }

/-- `match_guidelines` (supabase-setup.sql, lines 66-100): filter rows with
a non-null embedding above the similarity threshold, order by priority
descending then distance ascending, truncate to `match_count`, and return
each row with its similarity. -/
def match_guidelines (dist : Emb → Emb → ℚ) (table : List GRow) (query_embedding : Emb)
    (match_threshold : ℚ) (match_count : Nat) : List Candidate :=
  ((List.insertionSort (sqlOrder dist query_embedding)
      (table.filter (matchEligible dist query_embedding match_threshold))).take
    match_count).map (candidateOf dist query_embedding)

/-- `match_guidelines_stateful` (supabase-setup.sql, lines 21-64): like
`match_guidelines` but additionally excludes rows whose id is in the
accomplished set.  The function extracts that set from
`conversation_state->'accomplished_guidelines'` (COALESCE to the empty
array); here the extracted integer array is the parameter
`accomplished_guidelines`. -/
def match_guidelines_stateful (dist : Emb → Emb → ℚ) (table : List GRow)
    (query_embedding : Emb) (accomplished_guidelines : List Int)
    (match_threshold : ℚ) (match_count : Nat) : List Candidate :=
  ((List.insertionSort (sqlOrder dist query_embedding)
      (table.filter (fun g =>
        matchEligible dist query_embedding match_threshold g &&
          !(accomplished_guidelines.contains g.id)))).take
    match_count).map (candidateOf dist query_embedding)

/-- The retrieval call the chat pipeline actually makes
(`src/app/api/chat/route.ts`, lines 165-169): the stateless
`match_guidelines` RPC with `match_threshold: 0.4` and `match_count: 10`.
No session state is passed. -/
def pipelineRetrieve (dist : Emb → Emb → ℚ) (table : List GRow) (queryEmbedding : Emb) :
    List Candidate :=
  match_guidelines dist table queryEmbedding (4 / 10) 10

/-! ## JSON values

The classifier's parsed output, the per-frame SSE payloads and the
session `state` column are JSON; `JVal` is the value model.  JSON
numbers here are ids and integer scores, modelled as rationals. -/

inductive JVal where
  | jnull
  | jbool (b : Bool)
  | jnum (n : ℚ)
  | jstr (s : String)
  | jarr (elems : List JVal)
  | jobj (fields : List (String × JVal))
deriving Repr

/-- JavaScript property read `o[key]` on a parsed JSON object.
`JSON.parse` keeps the last occurrence of a duplicated key, hence the
reversed search. -/
def jLookup (fields : List (String × JVal)) (key : String) : Option JVal :=
  (fields.reverse.find? (fun p => p.1 == key)).map (fun p => p.2)

/-- A chat message (`{role, content}`). -/
structure Message where
  role : String
  content : String
deriving Repr, DecidableEq

/-! ## Applicability classifier (`guidelineMatching`, route.ts lines 30-81) -/

/-- Outcome of the classifier LLM call as the `try` block observes it:
either some step threw (the OpenAI call, or `JSON.parse` on its content),
or a JSON value was parsed.  A null `content` is parsed as `"[]"`
(`content || "[]"`), i.e. `parsed (.jarr [])`. -/
inductive ClassifierOutcome where
  | thrown
  | parsed (v : JVal)
deriving Repr

/-- `Array.isArray(responseObject) ? responseObject : Object.values(responseObject)[0]`
followed by the `Array.isArray(resultsArray)` check: the extracted result
array, or `none` when the code falls back to the empty list.  A top-level
array is used as is; for an object the first field's value is used if it
is an array; every other shape (including `Object.values` on a primitive
or on an empty object yielding a non-array) ends in the empty-list
fallback. -/
def extractResultsArray : JVal → Option (List JVal)
  | .jarr xs => some xs
  | .jobj fields =>
    match (fields.map (fun p => p.2)).head? with
    | some (JVal.jarr xs) => some xs
    | _ => none
  | _ => none

/-- Result of one `guidelineMatching` call: the (unvalidated, hence
`JVal`) result array the function returns, and whether the classifier
LLM was invoked at all. -/
structure MatchingCall where
  results : List JVal
  invokedLLM : Bool
deriving Repr

/-- `guidelineMatching` (route.ts lines 30-81).  An empty candidate list
returns immediately, before the OpenAI request is built; otherwise the
call's outcome is classified by `extractResultsArray`, with every failure
path (`catch`, non-array shape) returning the empty list.  The user
message and history only feed the prompt sent to the external LLM, whose
reply is the abstracted `outcome`. -/
def guidelineMatching (candidates : List Candidate) (userMessage : String)
    (conversationHistory : List Message) (outcome : ClassifierOutcome) : MatchingCall :=
  if candidates.isEmpty then ⟨[], false⟩
  else
    match outcome with
    | .thrown => ⟨[], true⟩
    | .parsed v => ⟨(extractResultsArray v).getD [], true⟩

/-- `r.guideline_id === g.id && r.applies === true` (route.ts line 175) on
an untrusted result element `r`: property reads on non-objects yield
`undefined`, and both strict comparisons demand exact types. -/
def jsApplies (r : JVal) (gid : Int) : Bool :=
  match r with
  | .jobj fields =>
    (match jLookup fields "guideline_id" with
     | some (.jnum n) => n == (gid : ℚ)
     | _ => false) &&
    (match jLookup fields "applies" with
     | some (.jbool b) => b
     | _ => false)
  | _ => false

/-- Route.ts line 175: the candidates the LLM marked applicable. -/
def activeGuidelinesOf (candidates : List Candidate) (matchingResults : List JVal) :
    List Candidate :=
  candidates.filter (fun g => matchingResults.any (fun r => jsApplies r g.id))

/-! ## Prompt assembly (route.ts lines 178-187) -/

/-- The `dynamicActions` expression of `POST`: imperative instructions
from the active guidelines, or the generic fallback directive. -/
def dynamicActions (activeGuidelines : List Candidate) : String :=
  if activeGuidelines.length > 0 then
    "Follow these instructions precisely:\n" ++
      String.intercalate "\n" (activeGuidelines.map (fun g => "* " ++ g.action))
  else
    "No specific instructions apply. Respond helpfully."

/-- The `systemPrompt` template literal of `POST`. -/
def systemPrompt (activeGuidelines : List Candidate) : String :=
  "You are Alex, a helpful assistant.\n    ---\n    CURRENT TASK:\n    " ++
    dynamicActions activeGuidelines ++ "\n    ---"

/-! ## Response supervisor (`superviseAndCorrectResponseStream`,
route.ts lines 87-140) -/

/-- One streamed chunk as the consumer reads it:
`chunk.choices[0]?.delta?.content`, which may be absent. -/
abbrev Chunk := Option String

/-- Outcome of the supervising (correction) LLM call: the call threw, or
it returned a stream of chunks. -/
inductive SupervisorOutcome where
  | thrown
  | ok (chunks : List Chunk)
deriving Repr, DecidableEq

/-- `superviseAndCorrectResponseStream` (route.ts lines 87-140), observed
as the sequence of chunks it yields: with no active guidelines, or when
the correction call throws, a single chunk holding the unmodified initial
response; otherwise the correction stream itself. -/
def superviseAndCorrectResponseStream (initialResponse : String)
    (activeGuidelines : List Candidate) (userMessage : String)
    (conversationHistory : List Message) (outcome : SupervisorOutcome) : List Chunk :=
  if activeGuidelines.isEmpty then [some initialResponse]
  else
    match outcome with
    | .thrown => [some initialResponse]
    | .ok chunks => chunks

/-- The text the user receives: concatenation of the contents the route
enqueues while draining the correction stream.  The route only enqueues
truthy contents (`if (content)`), skipping absent and empty strings,
which does not change the concatenation. -/
def streamedContent (chunks : List Chunk) : String :=
  String.join (chunks.filterMap (fun c =>
    match c with
    | some s => if s = "" then none else some s
    | none => none))

/-! ## The SSE response stream and durable effects (`POST`,
route.ts lines 142-232) -/

/-- One server-sent event written to the response stream: a
`data: <json>` frame, or the terminal `data: [DONE]` sentinel. -/
inductive Frame where
  | data (v : JVal)
  | done
deriving Repr

/-- `JSON.stringify` view of a candidate guideline, as embedded in the
`activeGuidelines` field of the terminal metadata frame. -/
def candidateJson (g : Candidate) : JVal :=
  .jobj [("id", .jnum (g.id : ℚ)), ("title", .jstr g.title),
    ("condition", .jstr g.condition), ("action", .jstr g.action),
    ("priority", .jnum (g.priority : ℚ)), ("category", .jstr g.category),
    ("similarity", .jnum g.similarity)]

/-- The `{ content }` frames the route enqueues while draining the
correction stream (route.ts lines 205-210): one frame per chunk whose
content is truthy. -/
def contentFrames (chunks : List Chunk) : List Frame :=
  chunks.filterMap (fun c =>
    match c with
    | some s => if s = "" then none else some (Frame.data (.jobj [("content", .jstr s)]))
    | none => none)

/-- The whole stream the route writes (route.ts lines 196-221): the
session-id frame, the content frames, the terminal metadata frame
(`guidelineMatchingResults` and `activeGuidelines`), and the sentinel. -/
def streamFrames (sessionId : String) (chunks : List Chunk)
    (matchingResults : List JVal) (activeGuidelines : List Candidate) : List Frame :=
  Frame.data (.jobj [("sessionId", .jstr sessionId)]) ::
    contentFrames chunks ++
    [Frame.data (.jobj [("guidelineMatchingResults", .jarr matchingResults),
      ("activeGuidelines", .jarr (activeGuidelines.map candidateJson))]),
     Frame.done]

/-- A durable write against Supabase that the chat route could perform.
The route's only write is the `conversation_sessions` insert (route.ts
line 151); `updateSession` exists so that the absence of any session-state
update is an expressible (and provable) fact. -/
inductive DbMutation where
  | insertSession
  | updateSession (sessionId : String) (state : JVal)
deriving Repr

/-- The inbound request body (`{ messages, sessionId }`). -/
structure ChatRequest where
  messages : List Message
  sessionId : Option String
deriving Repr

/-- Outcomes of every external call the `POST` handler makes, in program
order.  Each field abstracts one collaborator interaction:

* `insertSessionId` — `data?.id` of the `conversation_sessions` insert
  (`none` models a null `data`, which makes the route throw);
* `embeddingOutcome` — `openai.embeddings.create` (an exception aborts
  the turn through the outer catch);
* `rpcData` — the `data` field of the `match_guidelines` RPC reply
  (`none` models a failed call: supabase-js reports errors by a null
  `data`, it does not throw);
* `classifierOutcome` — the guideline-matching LLM call;
* `generatorOutcome` — `choices[0].message.content` of the initial
  completion (`ok none` models a null content, defaulted to `""`);
* `supervisorOutcome` — the correction LLM call. -/
structure ChatEnv where
  insertSessionId : Option String
  embeddingOutcome : Except String Emb
  rpcData : Option (List Candidate)
  classifierOutcome : ClassifierOutcome
  generatorOutcome : Except String (Option String)
  supervisorOutcome : SupervisorOutcome

/-- What one `POST` call produces: the HTTP-visible response (`ok` is the
SSE stream, `error` the 500 JSON body built in the catch block), and the
durable writes performed along the way. -/
structure TurnResult where
  response : Except String (List Frame)
  mutations : List DbMutation

/-- The `if (!sessionId)` truthiness test on the supplied session id:
a missing id and the empty string both count as absent. -/
def suppliedSessionId (req : ChatRequest) : Option String :=
  match req.sessionId with
  | some s => if s = "" then none else some s
  | none => none

/-- The `POST` handler of `src/app/api/chat/route.ts` (lines 142-232) as a
function of the request and the external-call outcomes.

Control flow traced from the source: reading
`messages[messages.length-1].content` on an empty list throws (caught by
the outer catch); a missing session id triggers the only durable write,
the session insert, and a null insert result throws; a failed embedding
call throws; the retrieval RPC's `data` is used as `candidateGuidelines || []`;
matching, filtering, prompt assembly and generation follow; the stream
then emits the frames of `streamFrames`.  No session-state update is ever
issued. -/
def chatTurn (req : ChatRequest) (env : ChatEnv) : TurnResult :=
  match req.messages.getLast? with
  | none => ⟨.error "Cannot read properties of undefined", []⟩
  | some lastMsg =>
    let userMessage := lastMsg.content
    let (sessionIdOpt, mutations) :=
      match suppliedSessionId req with
      | some sid => (some sid, ([] : List DbMutation))
      | none => (env.insertSessionId, [DbMutation.insertSession])
    match sessionIdOpt with
    | none => ⟨.error "Failed to create session.", mutations⟩
    | some sessionId =>
      match env.embeddingOutcome with
      | .error e => ⟨.error e, mutations⟩
      | .ok _queryEmbedding =>
        let candidateGuidelines := env.rpcData.getD []
        let matching :=
          guidelineMatching candidateGuidelines userMessage req.messages
            env.classifierOutcome
        let matchingResults := matching.results
        let activeGuidelines := activeGuidelinesOf candidateGuidelines matchingResults
        match env.generatorOutcome with
        | .error e => ⟨.error e, mutations⟩
        | .ok contentOpt =>
          let initialResponseText := contentOpt.getD ""
          let chunks :=
            superviseAndCorrectResponseStream initialResponseText activeGuidelines
              userMessage req.messages env.supervisorOutcome
          ⟨.ok (streamFrames sessionId chunks matchingResults activeGuidelines),
            mutations⟩

/-! ## Guideline authoring (`POST` of the guidelines route) and
`regenerate-embeddings/route.ts` -/

/-- The request body of the guideline-creation `POST`; absent fields
arrive as empty strings for the truthiness validation, and `priority`
defaults to 0 at destructuring. -/
structure CreateBody where
  title : String
  condition : String
  action : String
  priority : Int
  category : String
deriving Repr, DecidableEq

/-- Outcome of one `openai.embeddings.create` call for a condition text:
a vector, or an exception.  In the creation route the exception is caught
locally and creation continues with a null embedding. -/
inductive EmbedOutcome where
  | ok (e : Emb)
  | failed
deriving Repr, DecidableEq

/-- The HTTP result of the creation route: status code and, on 201, the
row stored (the insert's returned record). -/
structure CreateResult where
  status : Nat
  stored : Option GRow
deriving Repr, DecidableEq

/-- The guideline-creation `POST` handler: validate required fields by
truthiness (400 on a missing/empty title, condition or action), try to
generate the embedding — on failure keep `embedding = null` and continue —
then insert the row; an insert error yields 500, otherwise 201 with the
stored row.  `insertOutcome` is the id the database assigns (`SERIAL`),
or an insert error. -/
def createGuideline (body : CreateBody) (embedOutcome : EmbedOutcome)
    (insertOutcome : Except Unit Int) : CreateResult :=
  if body.title = "" ∨ body.condition = "" ∨ body.action = "" then
    ⟨400, none⟩
  else
    let embedding : Option Emb :=
      match embedOutcome with
      | .ok e => some e
      | .failed => none
    match insertOutcome with
    | .error _ => ⟨500, none⟩
    | .ok newId =>
      ⟨201, some ⟨newId, body.title, body.condition, body.action, body.priority,
        body.category, embedding⟩⟩

/-- The regenerate-embeddings `POST` handler, viewed as its effect on the
`guidelines` table: it selects exactly the rows whose embedding is null
(`.is('embedding', null)`), generates an embedding per selected row, and
updates the row when both the generation and the update succeed; rows
that already have an embedding are untouched, and per-row failures leave
that row unchanged.  `embedFn` gives the outcome of the embedding call
(with the database update folded into `failed`). -/
def regenerateEmbeddings (table : List GRow) (embedFn : GRow → EmbedOutcome) :
    List GRow :=
  table.map (fun g =>
    match g.embedding with
    | some _ => g
    | none =>
      match embedFn g with
      | .ok e => { g with embedding := some e }
      | .failed => g)

/-! ## Helper lemmas -/

/-- When the classifier call throws, `guidelineMatching` returns the
empty result list. -/
theorem guidelineMatching_results_thrown (cs : List Candidate) (um : String)
    (hist : List Message) :
    (guidelineMatching cs um hist .thrown).results = [] := by
  by_cases h : cs.isEmpty <;> simp [guidelineMatching, h]

/-- A parsed empty array (also the shape of a null content defaulted to
`"[]"`) yields the empty result list. -/
theorem guidelineMatching_results_parsed_arrNil (cs : List Candidate) (um : String)
    (hist : List Message) :
    (guidelineMatching cs um hist (.parsed (.jarr []))).results = [] := by
  by_cases h : cs.isEmpty <;> simp [guidelineMatching, h, extractResultsArray]

/-- Every candidate returned by `match_guidelines` is the image of a
table row that passed the eligibility filter. -/
theorem match_guidelines_mem (dist : Emb → Emb → ℚ) (table : List GRow) (q : Emb)
    (τ : ℚ) (N : Nat) :
    ∀ c ∈ match_guidelines dist table q τ N,
      ∃ g ∈ table, matchEligible dist q τ g = true ∧ c = candidateOf dist q g := by
  intro c hc
  unfold match_guidelines at hc
  rcases List.mem_map.1 hc with ⟨g, hg, rfl⟩
  have hg2 := List.mem_of_mem_take hg
  rw [List.mem_insertionSort] at hg2
  rcases List.mem_filter.1 hg2 with ⟨hgt, hge⟩
  exact ⟨g, hgt, hge, rfl⟩

/-- Truncating and projecting a row list that is sorted by the SQL key
order yields candidates pairwise ordered by priority descending, then
similarity descending. -/
theorem pairwise_of_sqlOrder (dist : Emb → Emb → ℚ) (q : Emb) (rows : List GRow)
    (N : Nat) (h : rows.Pairwise (sqlOrder dist q)) :
    (((rows.take N)).map (candidateOf dist q)).Pairwise
      (fun a b => b.priority ≤ a.priority ∧
        (a.priority = b.priority → b.similarity ≤ a.similarity)) := by
  rw [List.pairwise_map]
  have h2 : (rows.take N).Pairwise (sqlOrder dist q) :=
    h.sublist (List.take_sublist N rows)
  refine h2.imp ?_
  rintro a b (hlt | ⟨heq, hle⟩)
  · exact ⟨le_of_lt hlt, fun h2 => ((ne_of_lt hlt) h2.symm).elim⟩
  · exact ⟨le_of_eq heq.symm, fun _ => sub_le_sub_left hle 1⟩

/-! ## The claims -/

/-- C5: the applicability classifier is fail-safe.  An empty candidate
list returns the empty result list without invoking the classifier LLM;
a thrown classifier call, or parsed output from which no result array can
be extracted, returns the empty result list; an empty result list makes
the active set empty; and a turn whose classifier call throws produces
exactly the response a turn with a benign empty classification would,
so the turn still completes and streams its reply. -/
theorem c5_classifier_fail_safe :
    (∀ (um : String) (hist : List Message) (o : ClassifierOutcome),
      guidelineMatching [] um hist o = ⟨[], false⟩) ∧
    (∀ (cs : List Candidate) (um : String) (hist : List Message), cs ≠ [] →
      guidelineMatching cs um hist .thrown = ⟨[], true⟩) ∧
    (∀ (cs : List Candidate) (um : String) (hist : List Message) (v : JVal),
      cs ≠ [] → extractResultsArray v = none →
      guidelineMatching cs um hist (.parsed v) = ⟨[], true⟩) ∧
    (∀ cs : List Candidate, activeGuidelinesOf cs [] = []) ∧
    (∀ (req : ChatRequest) (env : ChatEnv),
      chatTurn req { env with classifierOutcome := .thrown } =
        chatTurn req { env with classifierOutcome := .parsed (.jarr []) }) := by
  refine ⟨fun um hist o => rfl, ?_, ?_, ?_, ?_⟩
  · intro cs um hist h
    have he : cs.isEmpty = false := by cases cs with
      | nil => exact absurd rfl h
      | cons a l => rfl
    simp [guidelineMatching, he]
  · intro cs um hist v h hv
    have he : cs.isEmpty = false := by cases cs with
      | nil => exact absurd rfl h
      | cons a l => rfl
    simp [guidelineMatching, he, hv]
  · intro cs
    simp [activeGuidelinesOf]
  · intro req env
    rcases env with ⟨i, em, rp, cl, ge, su⟩
    unfold chatTurn
    cases req.messages.getLast? with
    | none => rfl
    | some m =>
      dsimp only
      cases hs : suppliedSessionId req with
      | some sid =>
        cases em with
        | error e => rfl
        | ok v =>
          cases ge with
          | error e => rfl
          | ok c =>
            simp only [guidelineMatching_results_thrown,
              guidelineMatching_results_parsed_arrNil]
      | none =>
        cases i with
        | none => rfl
        | some sid =>
          cases em with
          | error e => rfl
          | ok v =>
            cases ge with
            | error e => rfl
            | ok c =>
              simp only [guidelineMatching_results_thrown,
                guidelineMatching_results_parsed_arrNil]

/-- C5 witness: a nonempty candidate list with a thrown classifier call,
and with a malformed (non-array) parsed output, both at concrete
inputs. -/
theorem c5_classifier_fail_safe_witness :
    ([(⟨1, "t", "c", "a", 0, "k", 1⟩ : Candidate)] ≠ [] ∧
      guidelineMatching [⟨1, "t", "c", "a", 0, "k", 1⟩] "hi" [] .thrown = ⟨[], true⟩) ∧
    (extractResultsArray (.jstr "oops") = none ∧
      guidelineMatching [⟨1, "t", "c", "a", 0, "k", 1⟩] "hi" []
        (.parsed (.jstr "oops")) = ⟨[], true⟩) :=
  ⟨⟨by simp, c5_classifier_fail_safe.2.1 [⟨1, "t", "c", "a", 0, "k", 1⟩] "hi" []
      (by simp)⟩,
   ⟨rfl, c5_classifier_fail_safe.2.2.1 [⟨1, "t", "c", "a", 0, "k", 1⟩] "hi" []
      (.jstr "oops") (by simp) rfl⟩⟩

/-- C6: when the supervising (correction) call fails on a turn with a
non-empty active-guideline set, the content streamed to the user is
byte-identical to the generator's draft: the fallback stream's
concatenated content is exactly the original draft. -/
theorem c6_supervision_failure_emits_draft (draft um : String)
    (hist : List Message) (gs : List Candidate) (h : gs ≠ []) :
    streamedContent
      (superviseAndCorrectResponseStream draft gs um hist .thrown) = draft := by
  have he : gs.isEmpty = false := by cases gs with
    | nil => exact absurd rfl h
    | cons a l => rfl
  unfold superviseAndCorrectResponseStream
  rw [he]
  by_cases hd : draft = ""
  · subst hd; rfl
  · simp only [Bool.false_eq_true, if_false]
    unfold streamedContent
    simp [hd, String.join]

/-- C6 witness at a concrete draft and a one-guideline active set. -/
theorem c6_supervision_failure_emits_draft_witness :
    ([(⟨2, "t", "c", "a", 5, "k", 1⟩ : Candidate)] ≠ [] ∧
      streamedContent
        (superviseAndCorrectResponseStream "the draft" [⟨2, "t", "c", "a", 5, "k", 1⟩]
          "hi" [] .thrown) = "the draft") :=
  ⟨by simp,
    c6_supervision_failure_emits_draft "the draft" "hi" []
      [⟨2, "t", "c", "a", 5, "k", 1⟩] (by simp)⟩

/-- C7: with an empty active set the assembled system prompt contains the
generic fallback directive, and the prompt assembler is total: the
instruction block it produces is never empty. -/
theorem c7_empty_active_prompt_fallback :
    (∃ pre post, systemPrompt [] =
      pre ++ "No specific instructions apply. Respond helpfully." ++ post) ∧
    dynamicActions [] = "No specific instructions apply. Respond helpfully." ∧
    ∀ gs : List Candidate, 0 < (dynamicActions gs).length := by
  refine ⟨⟨"You are Alex, a helpful assistant.\n    ---\n    CURRENT TASK:\n    ",
    "\n    ---", rfl⟩, rfl, ?_⟩
  intro gs
  cases gs with
  | nil => decide
  | cons a l =>
    have hpos : 0 < ("Follow these instructions precisely:\n").length := by decide
    simp only [dynamicActions, List.length_cons]
    rw [if_pos (Nat.succ_pos _)]
    rw [String.length_append]
    omega

/-- C7 witness: the non-empty-instruction-block guarantee instantiated at
the empty active set. -/
theorem c7_empty_active_prompt_fallback_witness :
    0 < (dynamicActions []).length :=
  c7_empty_active_prompt_fallback.2.2 []

/-- C8: in every candidate list returned by the retriever (the stateless
and the stateful SQL function alike), any earlier candidate has priority
at least that of any later one — so a strictly higher-priority candidate
always precedes a lower-priority one regardless of similarity — and among
equal priorities the earlier candidate has the larger similarity. -/
theorem c8_priority_over_similarity_order (dist : Emb → Emb → ℚ) (table : List GRow)
    (q : Emb) (τ : ℚ) (N : Nat) (accomplished : List Int) :
    ((match_guidelines dist table q τ N).Pairwise
      (fun a b => b.priority ≤ a.priority ∧
        (a.priority = b.priority → b.similarity ≤ a.similarity))) ∧
    ((match_guidelines_stateful dist table q accomplished τ N).Pairwise
      (fun a b => b.priority ≤ a.priority ∧
        (a.priority = b.priority → b.similarity ≤ a.similarity))) := by
  constructor
  · exact pairwise_of_sqlOrder dist q _ N (List.sorted_insertionSort _ _)
  · exact pairwise_of_sqlOrder dist q _ N (List.sorted_insertionSort _ _)

/-- C8 witness: the ordering guarantee instantiated at a concrete
two-row table. -/
theorem c8_priority_over_similarity_order_witness :
    (match_guidelines (fun _ _ => 0)
      [⟨1, "a", "c", "x", 10, "k", some []⟩, ⟨2, "b", "d", "y", 0, "k", some []⟩]
      [] (4 / 10) 10).Pairwise
      (fun a b => b.priority ≤ a.priority ∧
        (a.priority = b.priority → b.similarity ≤ a.similarity)) :=
  (c8_priority_over_similarity_order (fun _ _ => 0)
    [⟨1, "a", "c", "x", 10, "k", some []⟩, ⟨2, "b", "d", "y", 0, "k", some []⟩]
    [] (4 / 10) 10 []).1

/-- C9: a guideline row whose stored embedding is null is never returned
as a candidate.  Ids are unique in the table (the schema's primary key),
so no returned candidate carries the id of a null-embedding row. -/
theorem c9_null_embedding_not_retrievable (dist : Emb → Emb → ℚ) (table : List GRow)
    (q : Emb) (τ : ℚ) (N : Nat) (g0 : GRow)
    (hnodup : (table.map GRow.id).Nodup) (hg : g0 ∈ table)
    (hnull : g0.embedding = none) :
    ∀ c ∈ match_guidelines dist table q τ N, c.id ≠ g0.id := by
  intro c hc heq
  obtain ⟨g, hgt, hel, rfl⟩ := match_guidelines_mem dist table q τ N c hc
  have hid : g.id = g0.id := heq
  have hgg : g = g0 := List.inj_on_of_nodup_map hnodup hgt hg hid
  rw [hgg, matchEligible, hnull] at hel
  cases hel

/-- C9 witness: a two-row table where row 1 has a null embedding; it is
absent from the retrieval result. -/
theorem c9_null_embedding_not_retrievable_witness :
    (((([(⟨1, "a", "c", "x", 0, "k", none⟩ : GRow), ⟨2, "b", "d", "y", 0, "k", some []⟩]).map
        GRow.id).Nodup) ∧
      (⟨1, "a", "c", "x", 0, "k", none⟩ : GRow) ∈
        [(⟨1, "a", "c", "x", 0, "k", none⟩ : GRow), ⟨2, "b", "d", "y", 0, "k", some []⟩] ∧
      (⟨1, "a", "c", "x", 0, "k", none⟩ : GRow).embedding = none) ∧
    ∀ c ∈ match_guidelines (fun _ _ => 0)
        [(⟨1, "a", "c", "x", 0, "k", none⟩ : GRow), ⟨2, "b", "d", "y", 0, "k", some []⟩]
        [] (4 / 10) 10, c.id ≠ 1 :=
  ⟨⟨by decide, by decide, rfl⟩,
    c9_null_embedding_not_retrievable (fun _ _ => 0)
      [⟨1, "a", "c", "x", 0, "k", none⟩, ⟨2, "b", "d", "y", 0, "k", some []⟩]
      [] (4 / 10) 10 ⟨1, "a", "c", "x", 0, "k", none⟩
      (by decide) (by decide) rfl⟩

/-- Distance operator for the C1 scenario: every row sits at distance
1/100 from every query, i.e. similarity 0.99. -/
def distNN : Emb → Emb → ℚ := fun _ _ => 1 / 100

/-- The C1 guideline row: id 5, in the candidate pool. -/
def rowG5 : GRow := ⟨5, "G5", "cond5", "act5", 0, "cat", some []⟩

/-- The C1 session's accomplished set. -/
def accomplishedS : List Int := [5]

/-- C1: the retrieval call the chat pipeline makes does NOT honour the
session's accomplished set.  With `accomplished_guideline_ids = [5]` and
guideline id 5 in the pool at similarity 0.99, the pipeline's retrieval
(`match_guidelines` at threshold 0.4, count 10, with no state argument)
still returns the candidate with id 5 — whereas the repository's unused
`match_guidelines_stateful`, given the same inputs plus the accomplished
set, returns zero candidates, which is what the claim requires. -/
theorem c1_retrieval_ignores_accomplished_set :
    (5 : Int) ∈ accomplishedS ∧
    (pipelineRetrieve distNN [rowG5] []).map Candidate.id = [5] ∧
    (pipelineRetrieve distNN [rowG5] []).map Candidate.similarity = [99 / 100] ∧
    match_guidelines_stateful distNN [rowG5] [] accomplishedS (4 / 10) 10 = [] := by
  have hel : matchEligible distNN [] (4 / 10) rowG5 = true := by
    simp only [matchEligible, rowG5, distNN, decide_eq_true_eq]
    norm_num
  have hfilter : List.filter (matchEligible distNN [] (4 / 10)) [rowG5] = [rowG5] := by
    simp [List.filter_cons, hel]
  have hsort : List.insertionSort (sqlOrder distNN []) [rowG5] = [rowG5] := rfl
  refine ⟨by decide, ?_, ?_, ?_⟩
  · unfold pipelineRetrieve match_guidelines
    rw [hfilter, hsort]
    rfl
  · unfold pipelineRetrieve match_guidelines
    rw [hfilter, hsort]
    show [1 - rowDist distNN [] rowG5] = [99 / 100]
    simp only [rowDist, rowG5, distNN]
    norm_num
  · unfold match_guidelines_stateful
    rw [show List.filter (fun g => matchEligible distNN [] (4 / 10) g &&
        !(accomplishedS.contains g.id)) [rowG5] = [] from by
      simp [List.filter_cons, hel, accomplishedS, rowG5]]
    rfl

/-- C2: across every request and every outcome of the external calls, the
chat turn's durable writes are at most the lazy session creation — there
is never a session-state update, so the turn never persists an
accomplished-guideline set. -/
theorem c2_only_durable_write_is_session_insert (req : ChatRequest) (env : ChatEnv) :
    (chatTurn req env).mutations = [] ∨
    (chatTurn req env).mutations = [DbMutation.insertSession] := by
  rcases env with ⟨i, em, rp, cl, ge, su⟩
  unfold chatTurn
  cases req.messages.getLast? with
  | none => exact Or.inl rfl
  | some m =>
    dsimp only
    cases hs : suppliedSessionId req with
    | some sid =>
      cases em with
      | error e => exact Or.inl rfl
      | ok v =>
        cases ge with
        | error e => exact Or.inl rfl
        | ok c => exact Or.inl rfl
    | none =>
      cases i with
      | none => exact Or.inr rfl
      | some sid =>
        cases em with
        | error e => exact Or.inr rfl
        | ok v =>
          cases ge with
          | error e => exact Or.inr rfl
          | ok c => exact Or.inr rfl

/-- C2 witness: the durable-write dichotomy at a concrete turn that
creates its session lazily. -/
theorem c2_only_durable_write_is_session_insert_witness :
    (chatTurn ⟨[⟨"user", "hey"⟩], none⟩
        ⟨some "new-id", .ok [], some [], .parsed (.jarr []), .ok (some "ok"), .ok []⟩).mutations = [] ∨
    (chatTurn ⟨[⟨"user", "hey"⟩], none⟩
        ⟨some "new-id", .ok [], some [], .parsed (.jarr []), .ok (some "ok"), .ok []⟩).mutations =
      [DbMutation.insertSession] :=
  c2_only_durable_write_is_session_insert ⟨[⟨"user", "hey"⟩], none⟩
    ⟨some "new-id", .ok [], some [], .parsed (.jarr []), .ok (some "ok"), .ok []⟩

/-- The C3/C5 exemplar request: one user message, an existing session. -/
def req3 : ChatRequest := ⟨[⟨"user", "hi"⟩], some "sess-3"⟩

/-- The C3 environment: the `match_guidelines` RPC fails (`data` null),
every other collaborator behaves. -/
def env3 : ChatEnv :=
  ⟨none, .ok [], none, .parsed (.jarr []), .ok (some "hello"), .ok []⟩

/-- C3 counterexample: with the retrieval RPC failing, the turn neither
errors nor signals retrieval failure — it returns the ordinary success
stream built from zero candidates, refuting the claim that a retrieval
error is surfaced. -/
theorem c3_counterexample :
    env3.rpcData = none ∧
    (chatTurn req3 env3).response =
      Except.ok [Frame.data (.jobj [("sessionId", .jstr "sess-3")]),
        Frame.data (.jobj [("content", .jstr "hello")]),
        Frame.data (.jobj [("guidelineMatchingResults", .jarr []),
          ("activeGuidelines", .jarr [])]),
        Frame.done] ∧
    (chatTurn req3 env3).mutations = [] :=
  ⟨rfl, rfl, rfl⟩

/-- C3 amended: a failed vector-search call is silently treated as zero
candidates — the turn is indistinguishable from one whose retrieval
returned an empty candidate list, and no retrieval error reaches the
caller. -/
theorem c3_retrieval_error_treated_as_no_candidates (req : ChatRequest)
    (env : ChatEnv) (h : env.rpcData = none) :
    chatTurn req env = chatTurn req { env with rpcData := some [] } := by
  rcases env with ⟨i, em, rp, cl, ge, su⟩
  cases h
  rfl

/-- C3 witness for the amended theorem, at the counterexample's input. -/
theorem c3_retrieval_error_treated_as_no_candidates_witness :
    env3.rpcData = none ∧
    chatTurn req3 env3 = chatTurn req3 { env3 with rpcData := some [] } :=
  ⟨rfl, c3_retrieval_error_treated_as_no_candidates req3 env3 rfl⟩

/-- The C4 candidate guideline, retrieved and judged applicable. -/
def cand7 : Candidate := ⟨7, "T7", "C7x", "A7", 3, "cat", 9 / 10⟩

/-- The C4 request: one user message, an existing session. -/
def req4 : ChatRequest := ⟨[⟨"user", "hola"⟩], some "sess-4"⟩

/-- The C4 environment: one candidate, classifier marks it applicable,
generation and supervision both succeed. -/
def env4 : ChatEnv :=
  ⟨none, .ok [], some [cand7],
    .parsed (.jarr [.jobj [("guideline_id", .jnum 7), ("applies", .jbool true),
      ("score", .jnum 9), ("reason", .jstr "matches")]]),
    .ok (some "draft"), .ok [some "final"]⟩

/-- The fields of the terminal metadata frame the C4 turn emits. -/
def metaFields4 : List (String × JVal) :=
  [("guidelineMatchingResults", .jarr [.jobj [("guideline_id", .jnum 7),
      ("applies", .jbool true), ("score", .jnum 9), ("reason", .jstr "matches")]]),
   ("activeGuidelines", .jarr [candidateJson cand7])]

/-- C4: on a successful turn the stream is the session-id frame, the
content frames, one terminal metadata frame and the sentinel — but the
metadata frame carries only `guidelineMatchingResults` and
`activeGuidelines`: it has no `accomplishedGuidelines` field, though the
claim (and the dashboard, which reads `parsed.accomplishedGuidelines`)
requires one. -/
theorem c4_metadata_frame_lacks_accomplished :
    (chatTurn req4 env4).response =
      Except.ok [Frame.data (.jobj [("sessionId", .jstr "sess-4")]),
        Frame.data (.jobj [("content", .jstr "final")]),
        Frame.data (.jobj metaFields4), Frame.done] ∧
    (jLookup metaFields4 "guidelineMatchingResults").isSome = true ∧
    (jLookup metaFields4 "activeGuidelines").isSome = true ∧
    jLookup metaFields4 "accomplishedGuidelines" = none :=
  ⟨rfl, rfl, rfl, rfl⟩

/-- C10: when embedding generation fails during guideline creation, the
creation still succeeds with 201 and stores the row with a null
embedding; that row is invisible to retrieval (`match_guidelines` over a
table holding just it returns nothing, whatever the query); and the
regenerate-embeddings operation backfills exactly such rows, restoring an
embedding when its per-row generation succeeds. -/
theorem c10_create_survives_embedding_failure (body : CreateBody) (newId : Int)
    (dist : Emb → Emb → ℚ) (q : Emb) (τ : ℚ) (N : Nat) (e : Emb)
    (ht : body.title ≠ "") (hc : body.condition ≠ "") (ha : body.action ≠ "") :
    createGuideline body .failed (.ok newId) =
      ⟨201, some ⟨newId, body.title, body.condition, body.action, body.priority,
        body.category, none⟩⟩ ∧
    match_guidelines dist
      [⟨newId, body.title, body.condition, body.action, body.priority,
        body.category, none⟩] q τ N = [] ∧
    regenerateEmbeddings
      [⟨newId, body.title, body.condition, body.action, body.priority,
        body.category, none⟩] (fun _ => .ok e) =
      [⟨newId, body.title, body.condition, body.action, body.priority,
        body.category, some e⟩] := by
  refine ⟨?_, ?_, rfl⟩
  · unfold createGuideline
    rw [if_neg (by simp [ht, hc, ha])]
  · unfold match_guidelines
    rw [show List.filter (matchEligible dist q τ)
        [(⟨newId, body.title, body.condition, body.action, body.priority,
          body.category, none⟩ : GRow)] = [] from rfl]
    rw [show List.insertionSort (sqlOrder dist q) ([] : List GRow) = [] from rfl]
    simp

/-- C10 witness at a concrete creation request. -/
theorem c10_create_survives_embedding_failure_witness :
    ("T" ≠ "" ∧ "C" ≠ "" ∧ "A" ≠ "") ∧
    createGuideline ⟨"T", "C", "A", 1, "k"⟩ .failed (.ok 3) =
      ⟨201, some ⟨3, "T", "C", "A", 1, "k", none⟩⟩ ∧
    match_guidelines (fun _ _ => 0) [⟨3, "T", "C", "A", 1, "k", none⟩] [] (4 / 10) 10 = [] ∧
    regenerateEmbeddings [⟨3, "T", "C", "A", 1, "k", none⟩] (fun _ => .ok []) =
      [⟨3, "T", "C", "A", 1, "k", some []⟩] :=
  ⟨⟨by decide, by decide, by decide⟩,
    c10_create_survives_embedding_failure ⟨"T", "C", "A", 1, "k"⟩ 3
      (fun _ _ => 0) [] (4 / 10) 10 [] (by decide) (by decide) (by decide)⟩

end GuidelinesAgent
